import Mathlib

/-!
# Verification of `ilp-compat-plugin` (`src/index.js`)

A shallow embedding of the compatibility adapter that wraps an old,
event-driven ledger-plugin interface (LPI v1) behind the new promise-based
interface (LPI v2).  JavaScript strings are modelled as `List Char`, byte
buffers as `List Nat` (each element `< 256`), the correlation table
`this.transfers` as an association list from transfer identifier to the
state of the pending promise, and the observable interactions with the
wrapped plugin / the caller as an explicit list of `Effect`s produced by
each operation.

The external packet codec (`ilp-packet`) is out of scope per the spec: it
is modelled as an abstract invertible pair, i.e. the serialized form of a
payment (resp. fulfillment) packet is a record holding exactly the fields
that were serialized, and deserialization returns them.  Base64
encoding/decoding (Node's `buf.toString('base64')` and
`Buffer.from(s, 'base64')`), which the adapter composes around the codec,
is modelled concretely per RFC 4648.
-/

namespace IlpCompat

/-- JavaScript strings, modelled as lists of characters. -/
abbrev Str := List Char

/-- Byte buffers (Node `Buffer`), modelled as lists of naturals `< 256`. -/
abbrev Bytes := List Nat

/-! ## Base64 (RFC 4648, as implemented by Node's `Buffer`) -/

/-- The base64 alphabet. -/
def b64Alphabet : List Char :=
  ['A','B','C','D','E','F','G','H','I','J','K','L','M','N','O','P','Q','R',
   'S','T','U','V','W','X','Y','Z','a','b','c','d','e','f','g','h','i','j',
   'k','l','m','n','o','p','q','r','s','t','u','v','w','x','y','z','0','1',
   '2','3','4','5','6','7','8','9','+','/']

/-- The character encoding a six-bit group. -/
def sextetToChar (n : Nat) : Char := b64Alphabet.getD n '?'

/-- The six-bit group encoded by a base64 character. -/
def charToSextet (c : Char) : Nat := b64Alphabet.indexOf c

/-- Base64-encode a byte list, processing three input bytes per four
output characters, `=`-padding the final partial chunk. -/
def b64Encode : Bytes → List Char
  | [] => []
  | [b1] =>
      [sextetToChar (b1 / 4), sextetToChar (b1 % 4 * 16), '=', '=']
  | [b1, b2] =>
      [sextetToChar (b1 / 4), sextetToChar (b1 % 4 * 16 + b2 / 16),
       sextetToChar (b2 % 16 * 4), '=']
  | b1 :: b2 :: b3 :: rest =>
      sextetToChar (b1 / 4) :: sextetToChar (b1 % 4 * 16 + b2 / 16) ::
      sextetToChar (b2 % 16 * 4 + b3 / 64) :: sextetToChar (b3 % 64) ::
      b64Encode rest

/-- Base64-decode a character list, four characters per chunk, honouring
`=` padding in the final chunk. -/
def b64Decode : List Char → Bytes
  | x1 :: x2 :: x3 :: x4 :: rest =>
      if x3 = '=' then
        [charToSextet x1 * 4 + charToSextet x2 / 16]
      else if x4 = '=' then
        [charToSextet x1 * 4 + charToSextet x2 / 16,
         charToSextet x2 % 16 * 16 + charToSextet x3 / 4]
      else
        (charToSextet x1 * 4 + charToSextet x2 / 16) ::
        (charToSextet x2 % 16 * 16 + charToSextet x3 / 4) ::
        (charToSextet x3 % 4 * 64 + charToSextet x4) ::
        b64Decode rest
  | _ => []


/-! ## JavaScript string operations used by the adapter -/

/-- The source's helper `startsWith(prefix, subject)`:
`subject.substring(0, prefix.length) === prefix`. -/
def startsWith (pre subject : Str) : Bool :=
  decide (subject.take pre.length = pre)

/-- JS `s.split('.')` (split on a one-character separator; a JS split on a
non-empty separator never returns an empty array). -/
def splitDot : Str → List Str
  | [] => [[]]
  | c :: cs =>
      if c = '.' then [] :: splitDot cs
      else
        match splitDot cs with
        | [] => [[c]]
        | s :: rest => (c :: s) :: rest

/-- JS `s.split('.')[0]`. -/
def firstDotSegment (s : Str) : Str := (splitDot s).headD []

/-! ## The external packet codec (`ilp-packet`)

Out of scope per the spec (§1, §6): the codec is an external library
consumed as an invertible encode/decode pair.  We model the opaque binary
envelope as the record of fields that were serialized into it, so that
`deserialize (serialize f) = f` holds definitionally — exactly the
byte-compatibility contract the spec assigns to the codec.  (On the
incoming path the source applies `Buffer.from(ilp, 'base64')` to a value
that is already a `Buffer`, which Node treats as a plain copy, so it is
the identity here.) -/

/-- Field set of an ILP payment packet (`account`, `amount`, `data`);
`data` is base64 text. -/
structure IlpPaymentFields where
  account : Str
  amount : Str
  data : Str
deriving DecidableEq

/-- `IlpPacket.serializeIlpPayment`, modelled abstractly. -/
def serializeIlpPayment (f : IlpPaymentFields) : IlpPaymentFields := f

/-- `IlpPacket.deserializeIlpPayment`, modelled abstractly. -/
def deserializeIlpPayment (p : IlpPaymentFields) : IlpPaymentFields := p

/-- Field set of an ILP fulfillment packet (`data` is base64 text). -/
structure IlpFulfillmentFields where
  data : Str
deriving DecidableEq

/-- `IlpPacket.serializeIlpFulfillment`, modelled abstractly. -/
def serializeIlpFulfillment (f : IlpFulfillmentFields) : IlpFulfillmentFields := f

/-- `IlpPacket.deserializeIlpFulfillment`, modelled abstractly. -/
def deserializeIlpFulfillment (p : IlpFulfillmentFields) : IlpFulfillmentFields := p

/-! ## Data model -/

/-- New-interface outgoing transfer request (spec §3, `OutgoingTransferRequest`).
`hasSendTransfer` records whether the request object itself carries a
`sendTransfer` method: line 110 of the source invokes
`transfer.sendTransfer(lpi1Transfer)` on this object, which in JavaScript
succeeds only if such a method happens to be present and otherwise raises
a `TypeError`. -/
structure TransferRequest where
  amount : Str
  destination : Str
  data : Bytes
  condition : Str
  expiry : Str
  custom : Str
  hasSendTransfer : Bool
deriving DecidableEq

/-- Old-interface transfer record built by `sendTransfer` (spec §3,
`OldTransferRecord`). -/
structure OldTransferRecord where
  id : Str
  amount : Str
  toAddr : Str
  ledger : Str
  ilp : IlpPaymentFields
  executionCondition : Str
  expiresAt : Str
  custom : Str
deriving DecidableEq

/-- The value with which a pending promise is resolved:
`{fulfillment, data}`. -/
structure FulfillResult where
  fulfillment : Str
  data : Bytes
deriving DecidableEq

/-- A promise rejection reason: either the opaque reason supplied by an
`outgoing_reject`/`outgoing_cancel` event, or the `TypeError` raised when
a non-function is invoked. -/
inductive Reason
  | eventReason (r : Str)
  | typeError
deriving DecidableEq

/-- The state of the promise belonging to one correlation-table entry.
JavaScript promises ignore any settlement after the first. -/
inductive PromiseState
  | pending
  | fulfilled (v : FulfillResult)
  | rejectedWith (r : Reason)
deriving DecidableEq

/-- New-interface view of an incoming transfer handed to the registered
transfer handler. -/
structure TransferView where
  amount : Str
  destination : Str
  data : Bytes
  condition : Str
  expiry : Str
  custom : Str
deriving DecidableEq

/-- A JavaScript value supplied to `registerTransferHandler`: either a
function (whose behaviour maps a transfer view to a fulfillment decision
or a failure) or some non-callable value. -/
inductive JsHandler
  | func (f : TransferView → Except Reason FulfillResult)
  | notAFunction

/-- Observable interactions of the adapter with the wrapped plugin and
with the caller's promises. -/
inductive Effect
  | oldPluginSendTransfer (rec : OldTransferRecord)
  | requestSendTransfer (rec : OldTransferRecord)
  | resolveCalled (id : Str) (v : FulfillResult)
  | rejectCalled (id : Str) (r : Reason)
  | fulfillCondition (id : Str) (fulfillment : Str) (ilp : IlpFulfillmentFields)
  | rejectIncomingTransfer (rec : OldTransferRecord) (reason : List (Str × Str))
deriving DecidableEq

/-- Synchronously raised errors of the adapter. -/
inductive AdapterError
  | noValidDestination
  | transferHandlerAlreadyRegistered
  | invalidFields
deriving DecidableEq

/-- The wrapped plugin's `getInfo()` result: `{prefix, connectors}`. -/
structure PluginInfo where
  prefixStr : Str
  connectors : List Str
deriving DecidableEq

/-- Adapter state: the correlation table `this.transfers` (association
list from transfer identifier to the pending promise's state) and the
registered transfer handler slot `this._transferHandler`. -/
structure PluginState where
  transfers : List (Str × PromiseState)
  transferHandler : Option (TransferView → Except Reason FulfillResult)

/-- Lookup `this.transfers[id]`. -/
def tblLookup (l : List (Str × PromiseState)) (k : Str) : Option PromiseState :=
  match l with
  | [] => none
  | (k', v) :: rest => if k' = k then some v else tblLookup rest k

/-- Assignment `this.transfers[id] = v` (JS objects hold one binding per
key: replace if present, append otherwise). -/
def tblSet (l : List (Str × PromiseState)) (k : Str) (v : PromiseState) :
    List (Str × PromiseState) :=
  match l with
  | [] => [(k, v)]
  | (k', v') :: rest =>
      if k' = k then (k, v) :: rest else (k', v') :: tblSet rest k v

/-- Settling a promise: only a pending promise changes state; later
settlements are ignored. -/
def settle (ps : PromiseState) (out : PromiseState) : PromiseState :=
  match ps with
  | .pending => out
  | s => s

/-! ## Operations (src/index.js, class `Plugin`) -/

/-- The delivery address `to` computed at lines 75–83: if the destination
starts with the ledger prefix, the prefix plus
`destination.substring(prefix.length).split('.')[0]`; otherwise
`connectors[0]` (`none` models JS `undefined` when the array is empty). -/
def computeTo (info : PluginInfo) (destination : Str) : Option Str :=
  if startsWith info.prefixStr destination then
    some (info.prefixStr ++ firstDotSegment (destination.drop info.prefixStr.length))
  else
    info.connectors.head?

/-- JS truthiness test `!to`: `undefined` and the empty string are falsy. -/
def toIsFalsy (t : Option Str) : Bool :=
  match t with
  | none => true
  | some s => decide (s = [])

/-- Result of a call to the adapter's `sendTransfer`: the error it raises
synchronously (if any), the state afterwards, and the emitted effects. -/
structure SendResult where
  thrown : Option AdapterError
  state : PluginState
  effects : List Effect

/-- `sendTransfer(transfer)` (lines 70–113).  `freshId` stands for the
generated `uuid()`.  After the `to` computation and validity check, the
ILP payment envelope is serialized from the destination, the literal
amount `'0'` and the base64-encoded payload; the `lpi1Transfer` record is
built; the correlation-table entry is created inside the promise
executor; and then the source invokes `transfer.sendTransfer(lpi1Transfer)`
— a method of the *request object* — so when the request carries no such
method the executor raises a `TypeError`, which rejects the returned
promise; the wrapped plugin's `sendTransfer` is not reached on either
path. -/
def sendTransfer (info : PluginInfo) (freshId : Str) (st : PluginState)
    (transfer : TransferRequest) : SendResult :=
  let toValue := computeTo info transfer.destination
  if toIsFalsy toValue then
    { thrown := some .noValidDestination, state := st, effects := [] }
  else
    let toAddr := toValue.getD []
    let ilp := serializeIlpPayment
      { account := transfer.destination
        amount := ['0']
        data := b64Encode transfer.data }
    let lpi1Transfer : OldTransferRecord :=
      { id := freshId
        amount := transfer.amount
        toAddr := toAddr
        ledger := info.prefixStr
        ilp := ilp
        executionCondition := transfer.condition
        expiresAt := transfer.expiry
        custom := transfer.custom }
    let st1 : PluginState :=
      { st with transfers := tblSet st.transfers freshId .pending }
    if transfer.hasSendTransfer then
      { thrown := none, state := st1,
        effects := [.requestSendTransfer lpi1Transfer] }
    else
      { thrown := none,
        state := { st1 with
          transfers := tblSet st1.transfers freshId (.rejectedWith .typeError) },
        effects := [] }

/-- `_handleOutgoingFulfill(transfer, fulfillment, ilp)` (lines 151–165). -/
def handleOutgoingFulfill (st : PluginState) (transferId : Str)
    (fulfillment : Str) (ilp : IlpFulfillmentFields) : PluginState × List Effect :=
  match tblLookup st.transfers transferId with
  | none => (st, [])
  | some ps =>
      let d := (deserializeIlpFulfillment ilp).data
      let v : FulfillResult := { fulfillment := fulfillment, data := b64Decode d }
      ({ st with transfers := tblSet st.transfers transferId (settle ps (.fulfilled v)) },
       [.resolveCalled transferId v])

/-- `_handleOutgoingReject(transfer, reason)` (lines 167–177). -/
def handleOutgoingReject (st : PluginState) (transferId : Str)
    (reason : Reason) : PluginState × List Effect :=
  match tblLookup st.transfers transferId with
  | none => (st, [])
  | some ps =>
      ({ st with transfers := tblSet st.transfers transferId (settle ps (.rejectedWith reason)) },
       [.rejectCalled transferId reason])

/-- `_handleOutgoingCancel(transfer, reason)` (lines 179–189). -/
def handleOutgoingCancel (st : PluginState) (transferId : Str)
    (reason : Reason) : PluginState × List Effect :=
  match tblLookup st.transfers transferId with
  | none => (st, [])
  | some ps =>
      ({ st with transfers := tblSet st.transfers transferId (settle ps (.rejectedWith reason)) },
       [.rejectCalled transferId reason])

/-- `registerTransferHandler(handler)` (lines 115–125): the
already-registered check precedes the callability check. -/
def registerTransferHandler (st : PluginState) (handler : JsHandler) :
    Except AdapterError PluginState :=
  if st.transferHandler.isSome then
    .error .transferHandlerAlreadyRegistered
  else
    match handler with
    | .notAFunction => .error .invalidFields
    | .func f => .ok { st with transferHandler := some f }

/-- `deregisterTransferHandler()` (lines 127–129). -/
def deregisterTransferHandler (st : PluginState) : PluginState :=
  { st with transferHandler := none }

/-- The new-interface transfer view built at lines 192–202: the envelope
is decoded and the embedded destination and base64-encoded payload are
recovered. -/
def incomingTransferView (lpi1Transfer : OldTransferRecord) : TransferView :=
  let f := deserializeIlpPayment lpi1Transfer.ilp
  { amount := lpi1Transfer.amount
    destination := f.account
    data := b64Decode f.data
    condition := lpi1Transfer.executionCondition
    expiry := lpi1Transfer.expiresAt
    custom := lpi1Transfer.custom }

/-- `_handleIncomingPrepare(lpi1Transfer)` (lines 191–230).  The transfer
view is built, and the async body either fulfils via the wrapped plugin's
`fulfillCondition` or — on any failure (no handler registered, handler
throws, handler's promise rejects) — submits
`rejectIncomingTransfer(lpi1Transfer, {})` with an empty reason object. -/
def handleIncomingPrepare (st : PluginState) (lpi1Transfer : OldTransferRecord) :
    List Effect :=
  let transfer := incomingTransferView lpi1Transfer
  match st.transferHandler with
  | none => [.rejectIncomingTransfer lpi1Transfer []]
  | some h =>
      match h transfer with
      | .error _ => [.rejectIncomingTransfer lpi1Transfer []]
      | .ok res =>
          [.fulfillCondition lpi1Transfer.id res.fulfillment
            (serializeIlpFulfillment { data := b64Encode res.data })]

/-! ## Spec-side reading of the delivery-address computation -/

/-- The delivery address as the spec words it (§4.2 step 3): if the
destination is prefixed by the ledger prefix, the prefix concatenated
with the first path segment following the prefix; otherwise the first
configured connector. -/
def specDeliveryAddress (info : PluginInfo) (destination : Str) : Option Str :=
  if info.prefixStr <+: destination then
    some (info.prefixStr ++
      (destination.drop info.prefixStr.length).takeWhile (fun ch => ch != '.'))
  else
    info.connectors.head?

/-! ## Helper lemmas -/

theorem charToSextet_sextetToChar : ∀ n, n < 64 → charToSextet (sextetToChar n) = n := by
  decide

theorem b64Decode_pad2 (x1 x2 : Char) (rest : List Char) :
    b64Decode (x1 :: x2 :: '=' :: '=' :: rest) =
      [charToSextet x1 * 4 + charToSextet x2 / 16] := by
  simp [b64Decode]

theorem b64Decode_pad1 (x1 x2 x3 : Char) (rest : List Char) (h3 : x3 ≠ '=') :
    b64Decode (x1 :: x2 :: x3 :: '=' :: rest) =
      [charToSextet x1 * 4 + charToSextet x2 / 16,
       charToSextet x2 % 16 * 16 + charToSextet x3 / 4] := by
  simp [b64Decode, h3]

theorem b64Decode_full (x1 x2 x3 x4 : Char) (rest : List Char)
    (h3 : x3 ≠ '=') (h4 : x4 ≠ '=') :
    b64Decode (x1 :: x2 :: x3 :: x4 :: rest) =
      (charToSextet x1 * 4 + charToSextet x2 / 16) ::
      (charToSextet x2 % 16 * 16 + charToSextet x3 / 4) ::
      (charToSextet x3 % 4 * 64 + charToSextet x4) ::
      b64Decode rest := by
  simp [b64Decode, h3, h4]

theorem sextetToChar_ne_pad : ∀ n, n < 64 → sextetToChar n ≠ '=' := by
  decide

/-- Round-trip of base64 on byte lists. -/
theorem b64_roundtrip : ∀ l : Bytes, (∀ b ∈ l, b < 256) →
    b64Decode (b64Encode l) = l
  | [], _ => rfl
  | [b1], h => by
      have hb1 : b1 < 256 := h b1 (by simp)
      have h1 : b1 / 4 < 64 := by omega
      have h2 : b1 % 4 * 16 < 64 := by omega
      show b64Decode (sextetToChar (b1 / 4) :: sextetToChar (b1 % 4 * 16) ::
        '=' :: '=' :: []) = [b1]
      rw [b64Decode_pad2, charToSextet_sextetToChar _ h1,
        charToSextet_sextetToChar _ h2]
      have e : b1 / 4 * 4 + b1 % 4 * 16 / 16 = b1 := by omega
      rw [e]
  | [b1, b2], h => by
      have hb1 : b1 < 256 := h b1 (by simp)
      have hb2 : b2 < 256 := h b2 (by simp)
      have h1 : b1 / 4 < 64 := by omega
      have h2 : b1 % 4 * 16 + b2 / 16 < 64 := by omega
      have h3 : b2 % 16 * 4 < 64 := by omega
      show b64Decode (sextetToChar (b1 / 4) :: sextetToChar (b1 % 4 * 16 + b2 / 16) ::
        sextetToChar (b2 % 16 * 4) :: '=' :: []) = [b1, b2]
      rw [b64Decode_pad1 _ _ _ _ (sextetToChar_ne_pad _ h3),
        charToSextet_sextetToChar _ h1, charToSextet_sextetToChar _ h2,
        charToSextet_sextetToChar _ h3]
      have e1 : b1 / 4 * 4 + (b1 % 4 * 16 + b2 / 16) / 16 = b1 := by omega
      have e2 : (b1 % 4 * 16 + b2 / 16) % 16 * 16 + b2 % 16 * 4 / 4 = b2 := by omega
      rw [e1, e2]
  | b1 :: b2 :: b3 :: rest, h => by
      have hb1 : b1 < 256 := h b1 (by simp)
      have hb2 : b2 < 256 := h b2 (by simp)
      have hb3 : b3 < 256 := h b3 (by simp)
      have h1 : b1 / 4 < 64 := by omega
      have h2 : b1 % 4 * 16 + b2 / 16 < 64 := by omega
      have h3 : b2 % 16 * 4 + b3 / 64 < 64 := by omega
      have h4 : b3 % 64 < 64 := by omega
      have ih := b64_roundtrip rest (fun b hb => h b (by simp [hb]))
      show b64Decode (sextetToChar (b1 / 4) :: sextetToChar (b1 % 4 * 16 + b2 / 16) ::
        sextetToChar (b2 % 16 * 4 + b3 / 64) :: sextetToChar (b3 % 64) ::
        b64Encode rest) = _
      rw [b64Decode_full _ _ _ _ _ (sextetToChar_ne_pad _ h3) (sextetToChar_ne_pad _ h4)]
      rw [charToSextet_sextetToChar _ h1, charToSextet_sextetToChar _ h2,
        charToSextet_sextetToChar _ h3, charToSextet_sextetToChar _ h4, ih]
      have e1 : b1 / 4 * 4 + (b1 % 4 * 16 + b2 / 16) / 16 = b1 := by omega
      have e2 : (b1 % 4 * 16 + b2 / 16) % 16 * 16 + (b2 % 16 * 4 + b3 / 64) / 4 = b2 := by
        omega
      have e3 : (b2 % 16 * 4 + b3 / 64) % 4 * 64 + b3 % 64 = b3 := by omega
      rw [e1, e2, e3]

theorem splitDot_ne_nil : ∀ s : Str, splitDot s ≠ []
  | [] => by simp [splitDot]
  | c :: cs => by
      unfold splitDot
      by_cases h : c = '.'
      · simp [h]
      · simp only [if_neg h]
        cases hs : splitDot cs <;> simp

theorem firstDotSegment_cons_dot (cs : Str) : firstDotSegment ('.' :: cs) = [] := by
  simp [firstDotSegment, splitDot]

theorem firstDotSegment_cons (c : Char) (cs : Str) (h : ¬ c = '.') :
    firstDotSegment (c :: cs) = c :: firstDotSegment cs := by
  cases hs : splitDot cs with
  | nil => exact absurd hs (splitDot_ne_nil cs)
  | cons s rest => simp [firstDotSegment, splitDot, if_neg h, hs]

theorem firstDotSegment_eq_takeWhile : ∀ s : Str,
    firstDotSegment s = s.takeWhile (fun ch => ch != '.')
  | [] => rfl
  | c :: cs => by
      by_cases h : c = '.'
      · subst h
        rw [firstDotSegment_cons_dot]
        simp [List.takeWhile_cons]
      · rw [firstDotSegment_cons c cs h, firstDotSegment_eq_takeWhile cs]
        simp [List.takeWhile_cons, h]

theorem startsWith_iff_isPrefixOf (pre s : Str) :
    startsWith pre s = true ↔ pre <+: s := by
  unfold startsWith
  rw [decide_eq_true_eq]
  constructor
  · intro h
    rw [List.prefix_iff_eq_take]
    exact h.symm
  · intro h
    exact (List.prefix_iff_eq_take.mp h).symm

theorem tblLookup_tblSet_self : ∀ (l : List (Str × PromiseState)) (k : Str) (v : PromiseState),
    tblLookup (tblSet l k v) k = some v
  | [], k, v => by simp [tblSet, tblLookup]
  | (k', v') :: rest, k, v => by
      by_cases hk : k' = k
      · simp [tblSet, tblLookup, hk]
      · simp only [tblSet, tblLookup, if_neg hk]
        exact tblLookup_tblSet_self rest k v

theorem tblSet_keys_of_mem : ∀ (l : List (Str × PromiseState)) (k : Str)
    (v ps : PromiseState), tblLookup l k = some ps →
    (tblSet l k v).map Prod.fst = l.map Prod.fst
  | [], k, v, ps, h => by simp [tblLookup] at h
  | (k', v') :: rest, k, v, ps, h => by
      by_cases hk : k' = k
      · simp [tblSet, hk]
      · simp only [tblLookup, if_neg hk] at h
        simp only [tblSet, if_neg hk, List.map_cons]
        rw [tblSet_keys_of_mem rest k v ps h]

theorem tblSet_keys_of_absent : ∀ (l : List (Str × PromiseState)) (k : Str)
    (v : PromiseState), tblLookup l k = none →
    (tblSet l k v).map Prod.fst = l.map Prod.fst ++ [k]
  | [], k, v, _ => by simp [tblSet]
  | (k', v') :: rest, k, v, h => by
      by_cases hk : k' = k
      · simp [tblLookup, hk] at h
      · simp only [tblLookup, if_neg hk] at h
        simp only [tblSet, if_neg hk, List.map_cons, List.cons_append,
          List.cons.injEq, true_and]
        exact tblSet_keys_of_absent rest k v h

theorem tblSet_lookup_eq : ∀ (l : List (Str × PromiseState)) (k : Str)
    (v : PromiseState), tblLookup l k = some v → tblSet l k v = l
  | [], k, v, h => by simp [tblLookup] at h
  | (k', v') :: rest, k, v, h => by
      by_cases hk : k' = k
      · subst hk
        have hv : v' = v := by simpa [tblLookup] using h
        subst hv
        simp [tblSet]
      · simp only [tblLookup, if_neg hk] at h
        simp only [tblSet, if_neg hk, List.cons.injEq, true_and]
        exact tblSet_lookup_eq rest k v h

theorem settle_of_settled (ps out : PromiseState) (h : ps ≠ .pending) :
    settle ps out = ps := by
  cases ps with
  | pending => exact absurd rfl h
  | fulfilled v => rfl
  | rejectedWith r => rfl

theorem sendTransfer_state_cases (info : PluginInfo) (freshId : Str)
    (st : PluginState) (tr : TransferRequest) :
    (sendTransfer info freshId st tr).state.transfers = st.transfers ∨
    (sendTransfer info freshId st tr).state.transfers =
      tblSet st.transfers freshId .pending ∨
    (sendTransfer info freshId st tr).state.transfers =
      tblSet (tblSet st.transfers freshId .pending) freshId
        (.rejectedWith .typeError) := by
  unfold sendTransfer
  by_cases h : toIsFalsy (computeTo info tr.destination)
  · simp [h]
  · by_cases h2 : tr.hasSendTransfer <;> simp [h, h2]

/-! ## Claims -/

/-- C1: the claim says an accepted outgoing transfer leads to an
invocation of the wrapped old plugin's `sendTransfer` with the built
record.  The code instead invokes `transfer.sendTransfer(lpi1Transfer)` —
a method of the request object (line 110) — so no run of the adapter's
`sendTransfer` ever calls the wrapped plugin's transfer-send operation;
on a plain new-interface request (which carries no `sendTransfer` method)
the pending entry is registered and then its promise is rejected with the
`TypeError` raised inside the executor, with no outgoing call at all. -/
theorem sendTransfer_never_calls_old_plugin :
    (∀ (info : PluginInfo) (freshId : Str) (st : PluginState)
        (tr : TransferRequest) (rec : OldTransferRecord),
        Effect.oldPluginSendTransfer rec ∉ (sendTransfer info freshId st tr).effects) ∧
    sendTransfer ⟨"g.usd.".toList, []⟩ "tid-1".toList ⟨[], none⟩
        ⟨"10".toList, "g.usd.connector1.alice".toList, [104, 105], "cond".toList,
         "exp".toList, "cust".toList, false⟩ =
      { thrown := none,
        state := ⟨[("tid-1".toList, .rejectedWith .typeError)], none⟩,
        effects := [] } := by
  constructor
  · intro info freshId st tr rec
    unfold sendTransfer
    by_cases h : toIsFalsy (computeTo info tr.destination)
    · simp [h]
    · by_cases h2 : tr.hasSendTransfer <;> simp [h, h2]
  · rfl

/-- C2: the delivery address `to` is computed exactly as the spec words
it (`specDeliveryAddress`): when the destination starts with the ledger
prefix it is the prefix concatenated with the first dot-separated segment
of the destination after the prefix, otherwise the first configured
connector; in particular destination `g.usd.connector1.alice` with
prefix `g.usd.` resolves to `g.usd.connector1`, and a destination
outside the prefix resolves to the first connector. -/
theorem computeTo_matches_spec :
    (∀ (info : PluginInfo) (destination : Str),
        computeTo info destination = specDeliveryAddress info destination) ∧
    computeTo ⟨"g.usd.".toList, ["g.usd.connector1".toList]⟩
        "g.usd.connector1.alice".toList = some "g.usd.connector1".toList ∧
    computeTo ⟨"g.usd.".toList, ["g.usd.connector1".toList]⟩
        "g.eur.bank.bob".toList = some "g.usd.connector1".toList := by
  refine ⟨fun info destination => ?_, by decide, by decide⟩
  unfold computeTo specDeliveryAddress
  rw [firstDotSegment_eq_takeWhile]
  by_cases h : info.prefixStr <+: destination
  · rw [if_pos ((startsWith_iff_isPrefixOf _ _).mpr h), if_pos h]
  · rw [if_neg fun hc => h ((startsWith_iff_isPrefixOf _ _).mp hc), if_neg h]

/-- C3: when the destination does not start with the ledger prefix and no
connector is configured, `sendTransfer` fails synchronously with the
no-valid-destination error, leaves the correlation table (indeed the
whole state) untouched, and performs no outgoing call. -/
theorem sendTransfer_no_valid_destination (info : PluginInfo) (freshId : Str)
    (st : PluginState) (tr : TransferRequest)
    (h1 : startsWith info.prefixStr tr.destination = false)
    (h2 : info.connectors = []) :
    sendTransfer info freshId st tr =
      { thrown := some .noValidDestination, state := st, effects := [] } := by
  have hto : computeTo info tr.destination = none := by
    unfold computeTo
    rw [h2, if_neg (by simp [h1])]
    rfl
  simp [sendTransfer, hto, toIsFalsy]

/-- Witness for C3: a request to `g.eur.alice` on a plugin with prefix
`g.usd.` and no connectors. -/
theorem sendTransfer_no_valid_destination_witness :
    startsWith "g.usd.".toList "g.eur.alice".toList = false ∧
    ((⟨"g.usd.".toList, []⟩ : PluginInfo).connectors = []) ∧
    sendTransfer ⟨"g.usd.".toList, []⟩ "tid-1".toList ⟨[], none⟩
        ⟨"10".toList, "g.eur.alice".toList, [104, 105], "cond".toList,
         "exp".toList, "cust".toList, true⟩ =
      { thrown := some .noValidDestination, state := ⟨[], none⟩, effects := [] } :=
  ⟨by decide, rfl,
   sendTransfer_no_valid_destination ⟨"g.usd.".toList, []⟩ "tid-1".toList ⟨[], none⟩
     ⟨"10".toList, "g.eur.alice".toList, [104, 105], "cond".toList,
      "exp".toList, "cust".toList, true⟩ (by decide) rfl⟩

/-- C4: a fulfillment event whose identifier matches a pending
correlation-table entry resolves that promise with exactly
`{fulfillment, data}`, where `fulfillment` is the event's fulfillment
unmodified and `data` is the base64-decoded payload of the deserialized
fulfillment envelope; and the promise resolves only upon such an event —
an unmatched fulfillment resolves nothing, and neither the rejection or
cancellation handlers nor `sendTransfer` ever invoke a resolve
continuation. -/
theorem fulfill_resolves_with_decoded_payload :
    (∀ (st : PluginState) (tid fulfillment : Str) (ilp : IlpFulfillmentFields),
        tblLookup st.transfers tid = some .pending →
        handleOutgoingFulfill st tid fulfillment ilp =
          (⟨tblSet st.transfers tid
              (.fulfilled ⟨fulfillment, b64Decode (deserializeIlpFulfillment ilp).data⟩),
            st.transferHandler⟩,
           [.resolveCalled tid
              ⟨fulfillment, b64Decode (deserializeIlpFulfillment ilp).data⟩])) ∧
    (∀ (st : PluginState) (tid fulfillment : Str) (ilp : IlpFulfillmentFields),
        tblLookup st.transfers tid = none →
        handleOutgoingFulfill st tid fulfillment ilp = (st, [])) ∧
    (∀ (st : PluginState) (tid : Str) (r : Reason) (id : Str) (v : FulfillResult),
        Effect.resolveCalled id v ∉ (handleOutgoingReject st tid r).2 ∧
        Effect.resolveCalled id v ∉ (handleOutgoingCancel st tid r).2) ∧
    (∀ (info : PluginInfo) (freshId : Str) (st : PluginState)
        (tr : TransferRequest) (id : Str) (v : FulfillResult),
        Effect.resolveCalled id v ∉ (sendTransfer info freshId st tr).effects) := by
  refine ⟨?_, ?_, ?_, ?_⟩
  · intro st tid fulfillment ilp h
    simp [handleOutgoingFulfill, h, settle]
  · intro st tid fulfillment ilp h
    simp [handleOutgoingFulfill, h]
  · intro st tid r id v
    constructor <;>
      · cases hl : tblLookup st.transfers tid <;>
          simp [handleOutgoingReject, handleOutgoingCancel, hl]
  · intro info freshId st tr id v
    unfold sendTransfer
    by_cases h : toIsFalsy (computeTo info tr.destination)
    · simp [h]
    · by_cases h2 : tr.hasSendTransfer <;> simp [h, h2]

/-- Witness for C4 (first conjunct): fulfillment of a pending transfer
`tid-1` with envelope data `aGk=` (the bytes `hi`). -/
theorem fulfill_resolves_with_decoded_payload_witness :
    tblLookup [("tid-1".toList, PromiseState.pending)] "tid-1".toList =
      some .pending ∧
    handleOutgoingFulfill ⟨[("tid-1".toList, .pending)], none⟩ "tid-1".toList
        "ff".toList ⟨"aGk=".toList⟩ =
      (⟨[("tid-1".toList, .fulfilled ⟨"ff".toList, [104, 105]⟩)], none⟩,
       [.resolveCalled "tid-1".toList ⟨"ff".toList, [104, 105]⟩]) :=
  ⟨by decide,
   fulfill_resolves_with_decoded_payload.1 ⟨[("tid-1".toList, .pending)], none⟩
     "tid-1".toList "ff".toList ⟨"aGk=".toList⟩ (by decide)⟩

/-- C5: the cancellation handler is literally the same function as the
rejection handler, and on an identifier with a pending entry both reject
the matching promise with the event's supplied reason unmodified. -/
theorem reject_cancel_identical :
    handleOutgoingCancel = handleOutgoingReject ∧
    (∀ (st : PluginState) (tid : Str) (r : Reason),
        tblLookup st.transfers tid = some .pending →
        handleOutgoingReject st tid r =
          ({ st with transfers := tblSet st.transfers tid (.rejectedWith r) },
           [.rejectCalled tid r])) := by
  constructor
  · rfl
  · intro st tid r h
    simp [handleOutgoingReject, h, settle]

/-- Witness for C5 (second conjunct): rejection of pending transfer
`tid-1` with an event-supplied reason. -/
theorem reject_cancel_identical_witness :
    tblLookup [("tid-1".toList, PromiseState.pending)] "tid-1".toList =
      some .pending ∧
    handleOutgoingReject ⟨[("tid-1".toList, .pending)], none⟩ "tid-1".toList
        (.eventReason "boom".toList) =
      (⟨[("tid-1".toList, .rejectedWith (.eventReason "boom".toList))], none⟩,
       [.rejectCalled "tid-1".toList (.eventReason "boom".toList)]) :=
  ⟨by decide,
   reject_cancel_identical.2 ⟨[("tid-1".toList, .pending)], none⟩ "tid-1".toList
     (.eventReason "boom".toList) (by decide)⟩

/-- C6: a fulfillment, rejection or cancellation event whose identifier
has no matching entry has no observable effect — each handler returns
normally with the state unchanged and no effect emitted. -/
theorem unknown_id_events_ignored (st : PluginState) (tid fulfillment : Str)
    (ilp : IlpFulfillmentFields) (r : Reason)
    (h : tblLookup st.transfers tid = none) :
    handleOutgoingFulfill st tid fulfillment ilp = (st, []) ∧
    handleOutgoingReject st tid r = (st, []) ∧
    handleOutgoingCancel st tid r = (st, []) := by
  refine ⟨?_, ?_, ?_⟩ <;>
    simp [handleOutgoingFulfill, handleOutgoingReject, handleOutgoingCancel, h]

/-- Witness for C6: events for the unknown identifier `nope` on a table
holding only `tid-1`. -/
theorem unknown_id_events_ignored_witness :
    tblLookup [("tid-1".toList, PromiseState.pending)] "nope".toList = none ∧
    (handleOutgoingFulfill ⟨[("tid-1".toList, .pending)], none⟩ "nope".toList
        "ff".toList ⟨"aGk=".toList⟩ =
      (⟨[("tid-1".toList, .pending)], none⟩, []) ∧
     handleOutgoingReject ⟨[("tid-1".toList, .pending)], none⟩ "nope".toList
        (.eventReason "r".toList) =
      (⟨[("tid-1".toList, .pending)], none⟩, []) ∧
     handleOutgoingCancel ⟨[("tid-1".toList, .pending)], none⟩ "nope".toList
        (.eventReason "r".toList) =
      (⟨[("tid-1".toList, .pending)], none⟩, [])) :=
  ⟨by decide,
   unknown_id_events_ignored ⟨[("tid-1".toList, .pending)], none⟩ "nope".toList
     "ff".toList ⟨"aGk=".toList⟩ (.eventReason "r".toList) (by decide)⟩

/-- C7: round-trip — the routing envelope encoded by `sendTransfer` from
a request (destination, zero amount, base64 payload), decoded on the
incoming-prepare path, yields the original destination address and the
original payload bytes unchanged. -/
theorem envelope_roundtrip (info : PluginInfo) (freshId : Str) (st : PluginState)
    (tr : TransferRequest) (rec : OldTransferRecord)
    (hbytes : ∀ b ∈ tr.data, b < 256)
    (hmem : Effect.requestSendTransfer rec ∈ (sendTransfer info freshId st tr).effects) :
    (incomingTransferView rec).destination = tr.destination ∧
    (incomingTransferView rec).data = tr.data := by
  unfold sendTransfer at hmem
  by_cases h : toIsFalsy (computeTo info tr.destination)
  · simp [h] at hmem
  · by_cases h2 : tr.hasSendTransfer
    · simp only [h, h2, Bool.false_eq_true, if_false, if_true,
        List.mem_singleton, Effect.requestSendTransfer.injEq] at hmem
      subst hmem
      refine ⟨rfl, ?_⟩
      show b64Decode (b64Encode tr.data) = tr.data
      exact b64_roundtrip tr.data hbytes
    · simp [h, h2] at hmem

/-- Witness for C7: request with payload bytes `hi` to
`g.usd.connector1.alice`; the built record carries envelope data `aGk=`
and decodes back to the original destination and payload. -/
theorem envelope_roundtrip_witness :
    (∀ b ∈ [104, 105], b < 256) ∧
    Effect.requestSendTransfer
        ⟨"tid-1".toList, "10".toList, "g.usd.connector1".toList, "g.usd.".toList,
         ⟨"g.usd.connector1.alice".toList, "0".toList, "aGk=".toList⟩,
         "cond".toList, "exp".toList, "cust".toList⟩ ∈
      (sendTransfer ⟨"g.usd.".toList, []⟩ "tid-1".toList ⟨[], none⟩
        ⟨"10".toList, "g.usd.connector1.alice".toList, [104, 105], "cond".toList,
         "exp".toList, "cust".toList, true⟩).effects ∧
    ((incomingTransferView
        ⟨"tid-1".toList, "10".toList, "g.usd.connector1".toList, "g.usd.".toList,
         ⟨"g.usd.connector1.alice".toList, "0".toList, "aGk=".toList⟩,
         "cond".toList, "exp".toList, "cust".toList⟩).destination =
      "g.usd.connector1.alice".toList ∧
     (incomingTransferView
        ⟨"tid-1".toList, "10".toList, "g.usd.connector1".toList, "g.usd.".toList,
         ⟨"g.usd.connector1.alice".toList, "0".toList, "aGk=".toList⟩,
         "cond".toList, "exp".toList, "cust".toList⟩).data = [104, 105]) :=
  ⟨by decide, by decide,
   envelope_roundtrip ⟨"g.usd.".toList, []⟩ "tid-1".toList ⟨[], none⟩
     ⟨"10".toList, "g.usd.connector1.alice".toList, [104, 105], "cond".toList,
      "exp".toList, "cust".toList, true⟩
     ⟨"tid-1".toList, "10".toList, "g.usd.connector1".toList, "g.usd.".toList,
      ⟨"g.usd.connector1.alice".toList, "0".toList, "aGk=".toList⟩,
      "cond".toList, "exp".toList, "cust".toList⟩
     (by decide) (by decide)⟩

/-- C8 counterexample: with a handler already registered, supplying a
non-callable value fails with the already-registered error, not the
invalid-fields error the claim requires for every non-callable
argument. -/
theorem register_invalid_fields_counterexample :
    registerTransferHandler
        ⟨[], some (fun _ => Except.error .typeError)⟩ .notAFunction =
      .error .transferHandlerAlreadyRegistered ∧
    AdapterError.transferHandlerAlreadyRegistered ≠ AdapterError.invalidFields :=
  ⟨rfl, by decide⟩

/-- C8 (amended): the already-registered check precedes the callability
check — registration fails with the already-registered error whenever a
handler is currently registered (whatever the argument), and with the
invalid-fields error when no handler is registered and the argument is
not callable; deregistration clears the slot unconditionally and is
idempotent, and after it a registration with a callable handler
succeeds. -/
theorem register_deregister_contract :
    (∀ (st : PluginState) (h : JsHandler)
        (f : TransferView → Except Reason FulfillResult),
        st.transferHandler = some f →
        registerTransferHandler st h = .error .transferHandlerAlreadyRegistered) ∧
    (∀ st : PluginState, st.transferHandler = none →
        registerTransferHandler st .notAFunction = .error .invalidFields) ∧
    (∀ st : PluginState,
        (deregisterTransferHandler st).transferHandler = none ∧
        deregisterTransferHandler (deregisterTransferHandler st) =
          deregisterTransferHandler st) ∧
    (∀ (st : PluginState) (f : TransferView → Except Reason FulfillResult),
        registerTransferHandler (deregisterTransferHandler st) (.func f) =
          .ok { st with transferHandler := some f }) := by
  refine ⟨?_, ?_, ?_, ?_⟩
  · intro st h f hsome
    simp [registerTransferHandler, hsome]
  · intro st hnone
    simp [registerTransferHandler, hnone]
  · intro st
    exact ⟨rfl, rfl⟩
  · intro st f
    rfl

/-- Witness for C8 (amended): a registered handler makes a second
registration fail with the already-registered error. -/
theorem register_deregister_contract_witness :
    ((⟨[], some (fun _ => Except.error .typeError)⟩ : PluginState).transferHandler =
      some (fun _ => Except.error .typeError)) ∧
    registerTransferHandler
        ⟨[], some (fun _ => Except.error .typeError)⟩ .notAFunction =
      .error .transferHandlerAlreadyRegistered :=
  ⟨rfl,
   register_deregister_contract.1
     ⟨[], some (fun _ => Except.error .typeError)⟩ .notAFunction
     (fun _ => Except.error .typeError) rfl⟩

/-- C9: an incoming-prepare processed with no registered transfer
handler, or whose handler fails, submits a rejection of that transfer to
the wrapped plugin with an empty reason payload, and the wrapped
plugin's `fulfillCondition` is never invoked for it. -/
theorem incoming_failure_rejects :
    (∀ (st : PluginState) (rec : OldTransferRecord), st.transferHandler = none →
        handleIncomingPrepare st rec = [.rejectIncomingTransfer rec []] ∧
        ∀ (id f : Str) (ilp : IlpFulfillmentFields),
          Effect.fulfillCondition id f ilp ∉ handleIncomingPrepare st rec) ∧
    (∀ (st : PluginState) (rec : OldTransferRecord)
        (h : TransferView → Except Reason FulfillResult) (err : Reason),
        st.transferHandler = some h →
        h (incomingTransferView rec) = .error err →
        handleIncomingPrepare st rec = [.rejectIncomingTransfer rec []] ∧
        ∀ (id f : Str) (ilp : IlpFulfillmentFields),
          Effect.fulfillCondition id f ilp ∉ handleIncomingPrepare st rec) := by
  constructor
  · intro st rec hnone
    have he : handleIncomingPrepare st rec = [.rejectIncomingTransfer rec []] := by
      simp [handleIncomingPrepare, hnone]
    refine ⟨he, ?_⟩
    intro id f ilp
    simp [he]
  · intro st rec h err hsome herr
    have he : handleIncomingPrepare st rec = [.rejectIncomingTransfer rec []] := by
      simp [handleIncomingPrepare, hsome, herr]
    refine ⟨he, ?_⟩
    intro id f ilp
    simp [he]

/-- Witness for C9 (first conjunct): an incoming transfer arriving while
no handler is registered. -/
theorem incoming_failure_rejects_witness :
    ((⟨[], none⟩ : PluginState).transferHandler = none) ∧
    (handleIncomingPrepare ⟨[], none⟩
        ⟨"in-1".toList, "10".toList, "g.usd.me".toList, "g.usd.".toList,
         ⟨"g.usd.me.app".toList, "0".toList, "aGk=".toList⟩,
         "cond".toList, "exp".toList, "cust".toList⟩ =
      [.rejectIncomingTransfer
        ⟨"in-1".toList, "10".toList, "g.usd.me".toList, "g.usd.".toList,
         ⟨"g.usd.me.app".toList, "0".toList, "aGk=".toList⟩,
         "cond".toList, "exp".toList, "cust".toList⟩ []] ∧
     ∀ (id f : Str) (ilp : IlpFulfillmentFields),
       Effect.fulfillCondition id f ilp ∉
         handleIncomingPrepare ⟨[], none⟩
           ⟨"in-1".toList, "10".toList, "g.usd.me".toList, "g.usd.".toList,
            ⟨"g.usd.me.app".toList, "0".toList, "aGk=".toList⟩,
            "cond".toList, "exp".toList, "cust".toList⟩) :=
  ⟨rfl,
   incoming_failure_rejects.1 ⟨[], none⟩
     ⟨"in-1".toList, "10".toList, "g.usd.me".toList, "g.usd.".toList,
      ⟨"g.usd.me.app".toList, "0".toList, "aGk=".toList⟩,
      "cond".toList, "exp".toList, "cust".toList⟩ rfl⟩

/-- C10: no operation removes a correlation-table entry — the three
terminal-event handlers preserve the key list exactly, `sendTransfer`
at most appends the fresh identifier, and a second terminal event for an
already-settled entry still finds it and invokes a continuation again
while the state is unchanged (the settled promise ignores further
settlement). -/
theorem transfers_never_removed :
    (∀ (st : PluginState) (tid fulfillment : Str) (ilp : IlpFulfillmentFields),
        ((handleOutgoingFulfill st tid fulfillment ilp).1.transfers).map Prod.fst =
          st.transfers.map Prod.fst) ∧
    (∀ (st : PluginState) (tid : Str) (r : Reason),
        ((handleOutgoingReject st tid r).1.transfers).map Prod.fst =
          st.transfers.map Prod.fst ∧
        ((handleOutgoingCancel st tid r).1.transfers).map Prod.fst =
          st.transfers.map Prod.fst) ∧
    (∀ (info : PluginInfo) (freshId : Str) (st : PluginState) (tr : TransferRequest),
        ((sendTransfer info freshId st tr).state.transfers).map Prod.fst =
          st.transfers.map Prod.fst ∨
        ((sendTransfer info freshId st tr).state.transfers).map Prod.fst =
          st.transfers.map Prod.fst ++ [freshId]) ∧
    (∀ (st : PluginState) (tid fulfillment : Str) (ilp : IlpFulfillmentFields)
        (ps : PromiseState),
        tblLookup st.transfers tid = some ps → ps ≠ .pending →
        handleOutgoingFulfill st tid fulfillment ilp =
          (st, [.resolveCalled tid
            ⟨fulfillment, b64Decode (deserializeIlpFulfillment ilp).data⟩])) := by
  refine ⟨?_, ?_, ?_, ?_⟩
  · intro st tid fulfillment ilp
    cases hl : tblLookup st.transfers tid with
    | none => simp [handleOutgoingFulfill, hl]
    | some ps =>
        simp only [handleOutgoingFulfill, hl]
        exact tblSet_keys_of_mem st.transfers tid _ ps hl
  · intro st tid r
    constructor <;>
      · cases hl : tblLookup st.transfers tid with
        | none => simp [handleOutgoingReject, handleOutgoingCancel, hl]
        | some ps =>
            simp only [handleOutgoingReject, handleOutgoingCancel, hl]
            exact tblSet_keys_of_mem st.transfers tid _ ps hl
  · intro info freshId st tr
    rcases sendTransfer_state_cases info freshId st tr with hc | hc | hc
    · left
      rw [hc]
    · cases hl : tblLookup st.transfers freshId with
      | none =>
          right
          rw [hc]
          exact tblSet_keys_of_absent _ _ _ hl
      | some ps =>
          left
          rw [hc]
          exact tblSet_keys_of_mem _ _ _ ps hl
    · cases hl : tblLookup st.transfers freshId with
      | none =>
          right
          rw [hc, tblSet_keys_of_mem _ _ _ .pending
            (tblLookup_tblSet_self st.transfers freshId .pending)]
          exact tblSet_keys_of_absent _ _ _ hl
      | some ps =>
          left
          rw [hc, tblSet_keys_of_mem _ _ _ .pending
            (tblLookup_tblSet_self st.transfers freshId .pending)]
          exact tblSet_keys_of_mem _ _ _ ps hl
  · intro st tid fulfillment ilp ps hl hne
    simp only [handleOutgoingFulfill, hl]
    rw [settle_of_settled ps _ hne, tblSet_lookup_eq st.transfers tid ps hl]

/-- Witness for C10 (last conjunct): a second fulfillment event for the
already-fulfilled transfer `tid-1` still finds the entry, invokes the
resolve continuation again, and leaves the state unchanged. -/
theorem transfers_never_removed_witness :
    tblLookup [("tid-1".toList, PromiseState.fulfilled ⟨"ff".toList, [104, 105]⟩)]
        "tid-1".toList = some (.fulfilled ⟨"ff".toList, [104, 105]⟩) ∧
    (PromiseState.fulfilled ⟨"ff".toList, [104, 105]⟩ ≠ .pending) ∧
    handleOutgoingFulfill
        ⟨[("tid-1".toList, .fulfilled ⟨"ff".toList, [104, 105]⟩)], none⟩
        "tid-1".toList "ff".toList ⟨"aGk=".toList⟩ =
      (⟨[("tid-1".toList, .fulfilled ⟨"ff".toList, [104, 105]⟩)], none⟩,
       [.resolveCalled "tid-1".toList ⟨"ff".toList, [104, 105]⟩]) :=
  ⟨by decide, by decide,
   transfers_never_removed.2.2.2
     ⟨[("tid-1".toList, .fulfilled ⟨"ff".toList, [104, 105]⟩)], none⟩
     "tid-1".toList "ff".toList ⟨"aGk=".toList⟩
     (.fulfilled ⟨"ff".toList, [104, 105]⟩) (by decide) (by decide)⟩

end IlpCompat
